import Mathlib

/-!
Shallow embedding of `dataranges.py` (Naev data-range checker).

Floats are modelled by `ℚ` (every arithmetic operation the script performs on
its inputs — sums, differences, products, divisions, comparisons — is exact on
the rationals), except that `math.sqrt` has no exact rational counterpart: it
is threaded through as an abstract parameter `f : ℚ → ℚ`, so every theorem
below holds for any interpretation of the square root.  Python's `float('Inf')`
minimum sentinel is modelled by `none : Option ℚ` (every finite value compares
strictly below it, and equals it never), and a raised Python exception by
`Except.error`.
-/

deriving instance DecidableEq for Except

namespace Dataranges

/-- Errors a run can surface.  `zeroDivisionError` is what Python raises for
`x / 0`; `indexError` for an out-of-range subscript such as `items[-1]` on an
empty list.  `emptyInputError` is the error class named by the design document
for empty value sequences; the script itself never raises it. -/
inductive PyError where
  | zeroDivisionError
  | indexError
  | emptyInputError
  deriving DecidableEq, Repr

/-- `stats(iterable)` — mean and population standard deviation.

    mean = sum(iterable) / len(iterable)
    sq_dists = list((i - mean) ** 2 for i in iterable)
    variance = sum(sq_dists) / len(sq_dists)
    std_dev = math.sqrt(variance)
    return mean, std_dev

On an empty sequence the first division is `0 / 0`, which Python raises as a
`ZeroDivisionError`.  `f` models `math.sqrt`. -/
def stats (f : ℚ → ℚ) (iterable : List ℚ) : Except PyError (ℚ × ℚ) :=
  if iterable.length = 0 then .error .zeroDivisionError
  else
    let mean : ℚ := iterable.sum / iterable.length
    let sq_dists : List ℚ := iterable.map (fun i => (i - mean) ^ 2)
    let variance : ℚ := sq_dists.sum / sq_dists.length
    let std_dev : ℚ := f variance
    .ok (mean, std_dev)

/-- `liststr(items)` — format a list with commas and the word "and".

    if len(items) == 1: return str(items[0])
    else: return (', '.join(str(item) for item in items[:-1])
                  + ' and ' + str(items[-1]))

On the empty list the `else` branch evaluates `items[-1]`, which raises an
`IndexError`.  The items are already strings, so `str` is the identity. -/
def liststr (items : List String) : Except PyError String :=
  if items.length = 1 then .ok items.headI
  else
    match items.getLast? with
    | none => .error .indexError
    | some last => .ok (String.intercalate ", " items.dropLast ++ " and " ++ last)

/-- `hypot(x, y)` = `math.sqrt((x*x)+(y*y))`; `f` models `math.sqrt`. -/
def hypot (f : ℚ → ℚ) (x y : ℚ) : ℚ :=
  f (x * x + y * y)

/-- A running maximum state: the best value seen so far and the names of all
records that attained it, in first-seen order. -/
structure Extremum (α : Type) where
  value : α
  holders : List String
  deriving DecidableEq, Repr

/-- One step of the script's repeated max-tracking pattern, e.g. lines 104-107:

    if ssys.radius > hi_radius:
        largest_system, hi_radius = [ssys.name], ssys.radius
    elif ssys.radius == hi_radius:
        largest_system.append(ssys.name)
-/
def trackMaxStep {α : Type} [LinearOrder α] (st : Extremum α) (name : String)
    (v : α) : Extremum α :=
  if st.value < v then ⟨v, [name]⟩
  else if v = st.value then ⟨st.value, st.holders ++ [name]⟩
  else st

/-- A running minimum state; `value = none` models the `float('Inf')`
sentinel the script initializes minima with. -/
structure MinState (α : Type) where
  value : Option α
  holders : List String
  deriving DecidableEq, Repr

/-- One step of the script's repeated min-tracking pattern, e.g. lines 109-112:

    if ssys.radius < lo_radius:
        smallest_system, lo_radius = [ssys.name], ssys.radius
    elif ssys.radius == lo_radius:
        smallest_system.append(ssys.name)

Against the `float('Inf')` sentinel (`none`) every value compares strictly
smaller and none compares equal. -/
def trackMinStep {α : Type} [LinearOrder α] (st : MinState α) (name : String)
    (v : α) : MinState α :=
  match st.value with
  | none => ⟨some v, [name]⟩
  | some lo =>
      if v < lo then ⟨some v, [name]⟩
      else if v = lo then ⟨some lo, st.holders ++ [name]⟩
      else st

/-- Max-tracking over a whole record sequence in load order, from the script's
initial state `[], 0.0` (e.g. line 67: `largest_system, hi_radius = [], 0.0`). -/
def trackMax (records : List (String × ℚ)) : Extremum ℚ :=
  records.foldl (fun st r => trackMaxStep st r.1 r.2) ⟨0, []⟩

/-- One parsed star-system record, with exactly the fields the statistics pass
reads.  `density` / `volatility` stand for `ssys.nebula.density` /
`ssys.nebula.volatility`; only the length of `jumps` is used
(`len(ssys.jumps)`); each entry of `assets` records whether that asset tag
contains the substring `'Virtual'`, i.e. whether `asset.find('Virtual') + 1`
is truthy in the source. -/
structure SSystem where
  name : String
  density : ℚ
  volatility : ℚ
  interference : ℚ
  radius : ℚ
  stars : ℕ
  jumps : List String
  assets : List Bool
  deriving DecidableEq, Repr

/-- All accumulator variables of the system pass (source lines 63-79),
field names as in the script. -/
structure SysState where
  neb_densest_at : List String
  neb_density : ℚ
  neb_densities : List ℚ
  neb_worst_at : List String
  neb_volatility : ℚ
  neb_volatilities : List ℚ
  int_worst_at : List String
  interference : ℚ
  interferences : List ℚ
  largest_system : List String
  hi_radius : ℚ
  radii : List ℚ
  smallest_system : List String
  lo_radius : Option ℚ
  most_stars_at : List String
  most_stars : ℕ
  stars : List ℕ
  least_stars_at : List String
  least_stars : Option ℕ
  most_jumps_at : List String
  most_jumps : ℕ
  jumps : List ℕ
  least_jumps_at : List String
  least_jumps : Option ℕ
  zero_jumps_at : List String
  most_planets_at : List String
  most_planets : ℕ
  planets : List ℕ
  least_planets_at : List String
  least_planets : Option ℕ
  zero_planets_at : List String
  deriving DecidableEq, Repr

/-- The initial accumulator state: maxima start at `0` (`0.0` for floats),
minima at the `float('Inf')` sentinel (`none`), all lists empty. -/
def initSys : SysState where
  neb_densest_at := []
  neb_density := 0
  neb_densities := []
  neb_worst_at := []
  neb_volatility := 0
  neb_volatilities := []
  int_worst_at := []
  interference := 0
  interferences := []
  largest_system := []
  hi_radius := 0
  radii := []
  smallest_system := []
  lo_radius := none
  most_stars_at := []
  most_stars := 0
  stars := []
  least_stars_at := []
  least_stars := none
  most_jumps_at := []
  most_jumps := 0
  jumps := []
  least_jumps_at := []
  least_jumps := none
  zero_jumps_at := []
  most_planets_at := []
  most_planets := 0
  planets := []
  least_planets_at := []
  least_planets := none
  zero_planets_at := []

/-- The body of the system loop (source lines 81-163), one record at a time.
Each max/min block of the source is an instance of `trackMaxStep` /
`trackMinStep`; the jump and planet metrics divert zero values to their
`zero_*_at` lists instead of the min comparison (lines 134-142, 155-163). -/
def sysStep (st : SysState) (ssys : SSystem) : SysState :=
  let nebMax := trackMaxStep ⟨st.neb_density, st.neb_densest_at⟩ ssys.name ssys.density
  let volMax := trackMaxStep ⟨st.neb_volatility, st.neb_worst_at⟩ ssys.name ssys.volatility
  let intMax := trackMaxStep ⟨st.interference, st.int_worst_at⟩ ssys.name ssys.interference
  let radMax := trackMaxStep ⟨st.hi_radius, st.largest_system⟩ ssys.name ssys.radius
  let radMin := trackMinStep ⟨st.lo_radius, st.smallest_system⟩ ssys.name ssys.radius
  let starMax := trackMaxStep ⟨st.most_stars, st.most_stars_at⟩ ssys.name ssys.stars
  let starMin := trackMinStep ⟨st.least_stars, st.least_stars_at⟩ ssys.name ssys.stars
  let jump_num := ssys.jumps.length
  let jumpMax := trackMaxStep ⟨st.most_jumps, st.most_jumps_at⟩ ssys.name jump_num
  let zero_jumps_at :=
    if jump_num = 0 then st.zero_jumps_at ++ [ssys.name] else st.zero_jumps_at
  let jumpMin :=
    if jump_num = 0 then (⟨st.least_jumps, st.least_jumps_at⟩ : MinState ℕ)
    else trackMinStep ⟨st.least_jumps, st.least_jumps_at⟩ ssys.name jump_num
  let planet_num := (ssys.assets.filter (fun virt => !virt)).length
  let planMax := trackMaxStep ⟨st.most_planets, st.most_planets_at⟩ ssys.name planet_num
  let zero_planets_at :=
    if planet_num = 0 then st.zero_planets_at ++ [ssys.name] else st.zero_planets_at
  let planMin :=
    if planet_num = 0 then (⟨st.least_planets, st.least_planets_at⟩ : MinState ℕ)
    else trackMinStep ⟨st.least_planets, st.least_planets_at⟩ ssys.name planet_num
  { neb_densest_at := nebMax.holders
    neb_density := nebMax.value
    neb_densities := st.neb_densities ++ [ssys.density]
    neb_worst_at := volMax.holders
    neb_volatility := volMax.value
    neb_volatilities := st.neb_volatilities ++ [ssys.volatility]
    int_worst_at := intMax.holders
    interference := intMax.value
    interferences := st.interferences ++ [ssys.interference]
    largest_system := radMax.holders
    hi_radius := radMax.value
    radii := st.radii ++ [ssys.radius]
    smallest_system := radMin.holders
    lo_radius := radMin.value
    most_stars_at := starMax.holders
    most_stars := starMax.value
    stars := st.stars ++ [ssys.stars]
    least_stars_at := starMin.holders
    least_stars := starMin.value
    most_jumps_at := jumpMax.holders
    most_jumps := jumpMax.value
    jumps := st.jumps ++ [jump_num]
    least_jumps_at := jumpMin.holders
    least_jumps := jumpMin.value
    zero_jumps_at := zero_jumps_at
    most_planets_at := planMax.holders
    most_planets := planMax.value
    planets := st.planets ++ [planet_num]
    least_planets_at := planMin.holders
    least_planets := planMin.value
    zero_planets_at := zero_planets_at }

/-- The whole system pass: fold the loop body over the records in load order. -/
def runSystems (ssystems : List SSystem) : SysState :=
  ssystems.foldl sysStep initSys

/-- One parsed asset record, with exactly the fields the statistics pass
reads.  `posx` / `posy` stand for `asset.pos.x` / `asset.pos.y`; `gfxSpace`
is `asset.gfx['space']`. -/
structure Asset where
  name : String
  virtual : Bool
  posx : ℚ
  posy : ℚ
  hide : ℚ
  population : ℚ
  world_class : String
  gfxSpace : String
  deriving DecidableEq, Repr

/-- Lookup in a Python dict, modelled as an insertion-ordered association
list with unique keys. -/
def dictGet (d : List (String × ℕ)) (k : String) : Option ℕ :=
  match d with
  | [] => none
  | (k', v) :: rest => if k' = k then some v else dictGet rest k

/-- `if k in d: d[k] += 1 else: d.update({k: 1})` — increment an existing
key in place, else append the key with count 1 (Python dicts preserve
insertion order). -/
def dictIncr (d : List (String × ℕ)) (k : String) : List (String × ℕ) :=
  match d with
  | [] => [(k, 1)]
  | (k', v) :: rest => if k' = k then (k', v + 1) :: rest else (k', v) :: dictIncr rest k

/-- All accumulator variables of the asset pass (source lines 209-218),
field names as in the script. -/
structure AssetState where
  furthest : List String
  hi_orbit : ℚ
  orbits : List ℚ
  nearest : List String
  lo_orbit : Option ℚ
  best_hidden : List String
  hi_hide : ℚ
  hides : List ℚ
  worst_hidden : List String
  lo_hide : Option ℚ
  most_pop : List String
  hi_pop : ℚ
  pops : List ℚ
  least_pop : List String
  lo_pop : Option ℚ
  total_pops : List ℚ
  world_classes : List (String × ℕ)
  class_matches : List (String × ℕ)
  deriving DecidableEq, Repr

/-- Initial asset accumulators: maxima `0.0`, minima `float('Inf')` (`none`),
lists empty, dicts empty. -/
def initAssets : AssetState where
  furthest := []
  hi_orbit := 0
  orbits := []
  nearest := []
  lo_orbit := none
  best_hidden := []
  hi_hide := 0
  hides := []
  worst_hidden := []
  lo_hide := none
  most_pop := []
  hi_pop := 0
  pops := []
  least_pop := []
  lo_pop := none
  total_pops := []
  world_classes := []
  class_matches := []

/-- The body of the asset loop (source lines 220-270).  The whole body is
guarded by `if not asset.virtual:`, so a virtual asset leaves the state
untouched.  The source line `if asset.world_class.isalpha:` references the
`isalpha` method without calling it; a bound method object is always truthy
in Python, so that guard never fails and is embedded as unconditional.
`asset.gfx['space'][0] == asset.world_class` compares the length-1 leading
substring of the gfx name with the class code.  The population block
(lines 258-270) appends to `total_pops` unconditionally but only feeds
`pops` and the two extremum trackers when `asset.population > 0`; there is
no zero-holder list for population.  `f` models `math.sqrt` (via `hypot`). -/
def assetStep (f : ℚ → ℚ) (st : AssetState) (asset : Asset) : AssetState :=
  if asset.virtual then st
  else
    let orbit := hypot f asset.posx asset.posy
    let orbMax := trackMaxStep ⟨st.hi_orbit, st.furthest⟩ asset.name orbit
    let orbMin := trackMinStep ⟨st.lo_orbit, st.nearest⟩ asset.name orbit
    let hideMax := trackMaxStep ⟨st.hi_hide, st.best_hidden⟩ asset.name asset.hide
    let hideMin := trackMinStep ⟨st.lo_hide, st.worst_hidden⟩ asset.name asset.hide
    let world_classes := dictIncr st.world_classes asset.world_class
    let class_matches :=
      if asset.gfxSpace.take 1 = asset.world_class then
        dictIncr st.class_matches asset.world_class
      else st.class_matches
    let popMax :=
      if 0 < asset.population then
        trackMaxStep ⟨st.hi_pop, st.most_pop⟩ asset.name asset.population
      else (⟨st.hi_pop, st.most_pop⟩ : Extremum ℚ)
    let popMin :=
      if 0 < asset.population then
        trackMinStep ⟨st.lo_pop, st.least_pop⟩ asset.name asset.population
      else (⟨st.lo_pop, st.least_pop⟩ : MinState ℚ)
    let pops := if 0 < asset.population then st.pops ++ [asset.population] else st.pops
    { furthest := orbMax.holders
      hi_orbit := orbMax.value
      orbits := st.orbits ++ [orbit]
      nearest := orbMin.holders
      lo_orbit := orbMin.value
      best_hidden := hideMax.holders
      hi_hide := hideMax.value
      hides := st.hides ++ [asset.hide]
      worst_hidden := hideMin.holders
      lo_hide := hideMin.value
      most_pop := popMax.holders
      hi_pop := popMax.value
      pops := pops
      least_pop := popMin.holders
      lo_pop := popMin.value
      total_pops := st.total_pops ++ [asset.population]
      world_classes := world_classes
      class_matches := class_matches }

/-- The whole asset pass: fold the loop body over the records in load order. -/
def runAssets (f : ℚ → ℚ) (assets : List Asset) : AssetState :=
  assets.foldl (assetStep f) initAssets

/-- `math.ceil((world_classes[wc] - class_matches[wc]) / world_classes[wc] * 100)`
from source line 306: the percentage of class members whose space graphic
does not match their class code. -/
def mismatchCeil (count matchCount : ℕ) : ℤ :=
  ⌈((count : ℚ) - (matchCount : ℚ)) / (count : ℚ) * 100⌉

/-- The per-row data the report loop derives for one class code (source
lines 292-309): the asset type label and the parenthesised detail text. -/
structure RowInfo where
  asset_type : String
  extra_data : String
  deriving DecidableEq, Repr

/-- The branch structure of the report loop body (source lines 296-309):
station-class codes `'0'..'3'` get a static label; any other code gets a
mismatch percentage, computed from `class_matches` when the code is present
there and the literal `100` when it is absent. -/
def classRowInfo (class_matches : List (String × ℕ)) (world_class : String)
    (count : ℕ) : RowInfo :=
  if world_class = "0" ∨ world_class = "1" ∨ world_class = "2" ∨ world_class = "3" then
    let station_type :=
      if world_class = "0" then "civilian"
      else if world_class = "1" then "military"
      else if world_class = "2" then "interfactional"
      else "robotic"
    ⟨"station", " (" ++ station_type ++ ")"⟩
  else
    match dictGet class_matches world_class with
    | some matchCount =>
        ⟨"planet",
         " (" ++ toString (mismatchCeil count matchCount) ++
           "% don\x27t match their space GFX)"⟩
    | none => ⟨"planet", " (100% don\x27t match their space GFX)"⟩

/-- `sorted(world_classes.keys())` — the order in which the report loop
(source line 291) visits the tally's codes. -/
def sortedClassKeys (world_classes : List (String × ℕ)) : List String :=
  List.insertionSort (· ≤ ·) (world_classes.map Prod.fst)

/-- The four-system input of testable property 4: jump counts 0, 0, 3, 1
for systems S1, S2, S3, S4 (all other fields zero). -/
def jumpDemoSystems : List SSystem :=
  [⟨"S1", 0, 0, 0, 0, 0, [], []⟩,
   ⟨"S2", 0, 0, 0, 0, 0, [], []⟩,
   ⟨"S3", 0, 0, 0, 0, 0, ["j1", "j2", "j3"], []⟩,
   ⟨"S4", 0, 0, 0, 0, 0, ["j4"], []⟩]

/-- Claim C1: for every metric tracked for a maximum, one update step replaces
the holders with the singleton of the candidate's name on a strictly greater
value, appends the name on an exactly equal value, and leaves the state
unchanged on a smaller value; over records A=5, B=5, C=3 the final state is
value 5 with holders ["A", "B"] in that order, and over A=3, B=5, C=5, D=7 it
is value 7 with holders ["D"], the earlier B, C tie leaving no trace. -/
theorem max_tracking :
    (∀ {α : Type} [LinearOrder α] (st : Extremum α) (name : String) (v : α),
        st.value < v → trackMaxStep st name v = ⟨v, [name]⟩) ∧
    (∀ {α : Type} [LinearOrder α] (st : Extremum α) (name : String),
        trackMaxStep st name st.value = ⟨st.value, st.holders ++ [name]⟩) ∧
    (∀ {α : Type} [LinearOrder α] (st : Extremum α) (name : String) (v : α),
        v < st.value → trackMaxStep st name v = st) ∧
    trackMax [("A", 5), ("B", 5), ("C", 3)] = ⟨5, ["A", "B"]⟩ ∧
    trackMax [("A", 3), ("B", 5), ("C", 5), ("D", 7)] = ⟨7, ["D"]⟩ := by
  refine ⟨?_, ?_, ?_, by decide, by decide⟩
  · intro α _ st name v h
    simp [trackMaxStep, h]
  · intro α _ st name
    simp [trackMaxStep]
  · intro α _ st name v h
    simp [trackMaxStep, not_lt.mpr h.le, h.ne]

/-- Witness for C1: the three update-step cases at concrete inputs. -/
theorem max_tracking_witness :
    trackMaxStep (⟨3, ["X"]⟩ : Extremum ℚ) "Y" 5 = ⟨5, ["Y"]⟩ ∧
    trackMaxStep (⟨5, ["X"]⟩ : Extremum ℚ) "Y" 5 = ⟨5, ["X", "Y"]⟩ ∧
    trackMaxStep (⟨5, ["X"]⟩ : Extremum ℚ) "Z" 2 = ⟨5, ["X"]⟩ :=
  ⟨max_tracking.1 ⟨3, ["X"]⟩ "Y" 5 (by norm_num),
   max_tracking.2.1 ⟨5, ["X"]⟩ "Y",
   max_tracking.2.2.1 ⟨5, ["X"]⟩ "Z" 2 (by norm_num)⟩

/-- Claim C2: on a non-empty value sequence `stats` returns the arithmetic
mean and the standard deviation obtained by applying `math.sqrt` (the
abstract `f`) to the population variance — squared deviations averaged with
divisor N, not N−1; on [1, 2, 3, 4] it returns mean 5/2 = 2.5 and standard
deviation f (5/4) = sqrt 1.25. -/
theorem stats_population_stddev :
    (∀ (f : ℚ → ℚ) (values : List ℚ), values ≠ [] →
        stats f values =
          .ok (values.sum / values.length,
               f ((values.map fun i => (i - values.sum / values.length) ^ 2).sum
                    / values.length))) ∧
    (∀ f : ℚ → ℚ, stats f [1, 2, 3, 4] = .ok (5/2, f (5/4))) ∧
    (5 : ℚ)/2 = 2.5 ∧ (5 : ℚ)/4 = 1.25 := by
  refine ⟨?_, ?_, by norm_num, by norm_num⟩
  · intro f values h
    have hlen : values.length ≠ 0 := by simpa [List.length_eq_zero] using h
    simp [stats, hlen]
  · intro f
    simp [stats]
    norm_num

/-- Witness for C2: the general mean/variance formula applied to the
singleton list [2]. -/
theorem stats_population_stddev_witness :
    stats id [2] = .ok (2, id 0) := by
  have h := stats_population_stddev.1 id [2] (by simp)
  simpa using h

/-- Claim C3: a system whose jump count is exactly 0 is appended to the
separate `zero_jumps_at` list and excluded from the least-jumps comparison,
while the zero-inclusive `jumps` list still receives the 0; over jump counts
0, 0, 3, 1 for S1..S4 the least non-zero extremum is value 1 with holders
["S4"], the zero list is ["S1", "S2"] in order, and the mean over all four
values is 1. -/
theorem jumps_zero_diversion :
    (∀ (st : SysState) (ssys : SSystem), ssys.jumps.length = 0 →
        (sysStep st ssys).zero_jumps_at = st.zero_jumps_at ++ [ssys.name] ∧
        (sysStep st ssys).least_jumps = st.least_jumps ∧
        (sysStep st ssys).least_jumps_at = st.least_jumps_at ∧
        (sysStep st ssys).jumps = st.jumps ++ [0]) ∧
    (runSystems jumpDemoSystems).least_jumps = some 1 ∧
    (runSystems jumpDemoSystems).least_jumps_at = ["S4"] ∧
    (runSystems jumpDemoSystems).zero_jumps_at = ["S1", "S2"] ∧
    (∀ f : ℚ → ℚ,
        stats f ((runSystems jumpDemoSystems).jumps.map (fun n => (n : ℚ))) =
          .ok (1, f (3/2))) := by
  refine ⟨?_, by decide, by decide, by decide, ?_⟩
  · intro st ssys h
    refine ⟨?_, ?_, ?_, ?_⟩ <;> simp [sysStep, h]
  · intro f
    have hj : (runSystems jumpDemoSystems).jumps = [0, 0, 3, 1] := by decide
    rw [hj]
    simp [stats]
    norm_num

/-- Witness for C3: the zero-jump diversion step applied to a concrete
zero-jump system from the initial state. -/
theorem jumps_zero_diversion_witness :
    (sysStep initSys ⟨"S", 0, 0, 0, 0, 0, [], []⟩).zero_jumps_at =
      initSys.zero_jumps_at ++ ["S"] ∧
    (sysStep initSys ⟨"S", 0, 0, 0, 0, 0, [], []⟩).least_jumps =
      initSys.least_jumps :=
  ⟨(jumps_zero_diversion.1 initSys ⟨"S", 0, 0, 0, 0, 0, [], []⟩ (by decide)).1,
   (jumps_zero_diversion.1 initSys ⟨"S", 0, 0, 0, 0, 0, [], []⟩ (by decide)).2.1⟩

/-- Claim C4 counterexample: on the empty sequence `stats` raises Python's
`ZeroDivisionError` (from `sum(iterable) / len(iterable)`), not the
`EmptyInputError` the claim names — no such class exists in the script. -/
theorem stats_empty_cex :
    stats id [] = .error .zeroDivisionError ∧
    stats id [] ≠ .error .emptyInputError := by
  constructor <;> decide

/-- Claim C4 as amended: aggregating an empty value sequence raises a
`ZeroDivisionError`, surfaced to the caller (nothing catches it), rather
than returning 0 or NaN or silently defaulting. -/
theorem stats_empty_zeroDivision :
    ∀ f : ℚ → ℚ, stats f [] = .error .zeroDivisionError := by
  intro f
  rfl

/-- Claim C5: an asset with `virtual == true` leaves the whole asset
accumulator state unchanged — it contributes to no orbit, stealth or
population statistic and not to the world-class tally, whatever its other
fields; concretely a virtual asset with population 1000000 never appears
among the biggest-population holders. -/
theorem virtual_excluded :
    (∀ (f : ℚ → ℚ) (st : AssetState) (asset : Asset),
        asset.virtual = true → assetStep f st asset = st) ∧
    (∀ f : ℚ → ℚ,
        (runAssets f [⟨"V", true, 9, 9, 9, 1000000, "Q", "Q.png"⟩,
                      ⟨"P", false, 3, 4, 1, 5, "K", "K.png"⟩]).most_pop = ["P"] ∧
        (runAssets f [⟨"V", true, 9, 9, 9, 1000000, "Q", "Q.png"⟩,
                      ⟨"P", false, 3, 4, 1, 5, "K", "K.png"⟩]).hi_pop = 5 ∧
        (runAssets f [⟨"V", true, 9, 9, 9, 1000000, "Q", "Q.png"⟩,
                      ⟨"P", false, 3, 4, 1, 5, "K", "K.png"⟩]).world_classes =
          [("K", 1)]) := by
  constructor
  · intro f st asset h
    simp [assetStep, h]
  · intro f
    exact ⟨rfl, rfl, rfl⟩

/-- Witness for C5: a concrete virtual asset leaves the initial state
unchanged. -/
theorem virtual_excluded_witness :
    assetStep id initAssets ⟨"V", true, 9, 9, 9, 1000000, "Q", "Q.png"⟩ =
      initAssets :=
  virtual_excluded.1 id initAssets ⟨"V", true, 9, 9, 9, 1000000, "Q", "Q.png"⟩ rfl

/-- Claim C6: for a code the report shows a mismatch percentage for, with
count occurrences and matchCount predicate matches — matchCount defaulting
to 0 when the code never matched, in which case the literal 100 printed by
the fallback branch equals the formula's value — the reported percentage is
ceil((count − matchCount) / count · 100); count 10 with matchCount 7
yields 30. -/
theorem mismatch_percentage :
    (∀ (class_matches : List (String × ℕ)) (wc : String) (count matchCount : ℕ),
        ¬(wc = "0" ∨ wc = "1" ∨ wc = "2" ∨ wc = "3") →
        dictGet class_matches wc = some matchCount →
        classRowInfo class_matches wc count =
          ⟨"planet", " (" ++ toString (mismatchCeil count matchCount) ++
            "% don\x27t match their space GFX)"⟩) ∧
    (∀ (class_matches : List (String × ℕ)) (wc : String) (count : ℕ),
        0 < count →
        ¬(wc = "0" ∨ wc = "1" ∨ wc = "2" ∨ wc = "3") →
        dictGet class_matches wc = none →
        classRowInfo class_matches wc count =
          ⟨"planet", " (" ++ toString (mismatchCeil count 0) ++
            "% don\x27t match their space GFX)"⟩) ∧
    mismatchCeil 10 7 = 30 ∧
    classRowInfo [("K", 7)] "K" 10 =
      ⟨"planet", " (30% don\x27t match their space GFX)"⟩ := by
  have h30 : mismatchCeil 10 7 = 30 := by unfold mismatchCeil; norm_num
  refine ⟨?_, ?_, h30, ?_⟩
  · intro cm wc count m hns hm
    simp [classRowInfo, hns, hm]
  · intro cm wc count hc hns hm
    have h100 : mismatchCeil count 0 = 100 := by
      unfold mismatchCeil
      have hne : (count : ℚ) ≠ 0 := Nat.cast_ne_zero.mpr hc.ne'
      rw [Nat.cast_zero, sub_zero, div_self hne]
      norm_num
    have hrow : classRowInfo cm wc count =
        ⟨"planet", " (100% don\x27t match their space GFX)"⟩ := by
      simp [classRowInfo, hns, hm]
    rw [hrow, h100]
    rfl
  · have hrow : classRowInfo [("K", 7)] "K" 10 =
        ⟨"planet", " (" ++ toString (mismatchCeil 10 7) ++
          "% don\x27t match their space GFX)"⟩ := rfl
    rw [hrow, h30]
    rfl

/-- Witness for C6: both branches applied at concrete tallies — code "K"
counted 10 times with 7 matches, and a code "Z" that never matched, counted
4 times. -/
theorem mismatch_percentage_witness :
    classRowInfo [("K", 7)] "K" 10 =
      ⟨"planet", " (" ++ toString (mismatchCeil 10 7) ++
        "% don\x27t match their space GFX)"⟩ ∧
    classRowInfo [("K", 7)] "Z" 4 =
      ⟨"planet", " (" ++ toString (mismatchCeil 4 0) ++
        "% don\x27t match their space GFX)"⟩ :=
  ⟨mismatch_percentage.1 [("K", 7)] "K" 10 7 (by decide) rfl,
   mismatch_percentage.2.1 [("K", 7)] "Z" 4 (by decide) (by decide) rfl⟩

/-- Claim C7 (code bug): station-class codes '0'..'3' are indeed rendered
from the static civilian/military/interfactional/robotic lookup, but they
are NOT exempt from the graphics-matching predicate: source line 251,
`if asset.world_class.isalpha:`, references the `isalpha` method without
calling it, and a bound method object is always truthy, so a non-virtual
station asset whose space graphic leads with its class code does
accumulate a match count for that code. -/
theorem station_match_count_accumulated :
    (runAssets id [⟨"SB", false, 0, 0, 0, 0, "0", "0_sb.png"⟩]).class_matches =
      [("0", 1)] ∧
    (∀ (class_matches : List (String × ℕ)) (count : ℕ),
        classRowInfo class_matches "0" count = ⟨"station", " (civilian)"⟩ ∧
        classRowInfo class_matches "1" count = ⟨"station", " (military)"⟩ ∧
        classRowInfo class_matches "2" count = ⟨"station", " (interfactional)"⟩ ∧
        classRowInfo class_matches "3" count = ⟨"station", " (robotic)"⟩) := by
  constructor
  · rfl
  · intro cm count
    exact ⟨rfl, rfl, rfl, rfl⟩

/-- Claim C8: the report's per-code rows are visited in lexicographically
ascending order of the code strings — the key list is sorted, is a
permutation of the tally's keys, and depends only on which keys occur, not
on their insertion order. -/
theorem class_keys_sorted :
    (∀ d : List (String × ℕ), (sortedClassKeys d).Sorted (· ≤ ·)) ∧
    (∀ d : List (String × ℕ), (sortedClassKeys d).Perm (d.map Prod.fst)) ∧
    (∀ d d' : List (String × ℕ),
        (d.map Prod.fst).Perm (d'.map Prod.fst) →
        sortedClassKeys d = sortedClassKeys d') ∧
    sortedClassKeys [("K", 3), ("A", 1), ("C", 2)] = ["A", "C", "K"] := by
  refine ⟨fun d => List.sorted_insertionSort _ _,
          fun d => List.perm_insertionSort _ _,
          fun d d' h => List.eq_of_perm_of_sorted
            ((List.perm_insertionSort _ _).trans
              (h.trans (List.perm_insertionSort _ _).symm))
            (List.sorted_insertionSort _ _) (List.sorted_insertionSort _ _),
          ?_⟩
  simp [sortedClassKeys, List.insertionSort, List.orderedInsert]
  decide

/-- Witness for C8: two tallies with the same keys in different insertion
orders produce the same sorted key list. -/
theorem class_keys_sorted_witness :
    sortedClassKeys [("B", 1), ("A", 2)] = sortedClassKeys [("A", 2), ("B", 1)] :=
  class_keys_sorted.2.2.1 [("B", 1), ("A", 2)] [("A", 2), ("B", 1)] (by decide)

/-- Claim C9: a non-virtual asset with population exactly 0 is excluded from
the population maximum and minimum tracking and from the zero-exclusive
`pops` list, and contributes only the 0 appended to the zero-inclusive
`total_pops` list; the asset state has no zero-holder list for population,
so nothing else of the population accumulators changes. -/
theorem zero_population_excluded :
    ∀ (f : ℚ → ℚ) (st : AssetState) (asset : Asset),
      asset.virtual = false → asset.population = 0 →
      (assetStep f st asset).pops = st.pops ∧
      (assetStep f st asset).most_pop = st.most_pop ∧
      (assetStep f st asset).hi_pop = st.hi_pop ∧
      (assetStep f st asset).least_pop = st.least_pop ∧
      (assetStep f st asset).lo_pop = st.lo_pop ∧
      (assetStep f st asset).total_pops = st.total_pops ++ [0] := by
  intro f st asset hv hp
  refine ⟨?_, ?_, ?_, ?_, ?_, ?_⟩ <;> simp [assetStep, hv, hp]

/-- Witness for C9: a concrete zero-population non-virtual asset from the
initial state. -/
theorem zero_population_excluded_witness :
    (assetStep id initAssets ⟨"Z", false, 2, 2, 2, 0, "K", "K.png"⟩).pops =
      initAssets.pops ∧
    (assetStep id initAssets ⟨"Z", false, 2, 2, 2, 0, "K", "K.png"⟩).most_pop =
      initAssets.most_pop ∧
    (assetStep id initAssets ⟨"Z", false, 2, 2, 2, 0, "K", "K.png"⟩).total_pops =
      initAssets.total_pops ++ [0] :=
  ⟨(zero_population_excluded id initAssets ⟨"Z", false, 2, 2, 2, 0, "K", "K.png"⟩
      rfl rfl).1,
   (zero_population_excluded id initAssets ⟨"Z", false, 2, 2, 2, 0, "K", "K.png"⟩
      rfl rfl).2.1,
   (zero_population_excluded id initAssets ⟨"Z", false, 2, 2, 2, 0, "K", "K.png"⟩
      rfl rfl).2.2.2.2.2⟩

/-- Claim C10: `liststr` returns its single element on a singleton and the
comma-joined initial elements followed by " and " and the last element on
length ≥ 2, but on the empty list the `items[-1]` subscript raises an
IndexError — so rendering fails whenever a holder list it is applied to is
empty, e.g. `zero_jumps_at` when every system has at least one jump. -/
theorem liststr_spec :
    liststr [] = .error .indexError ∧
    (∀ a : String, liststr [a] = .ok a) ∧
    (∀ (items : List String) (last : String), 2 ≤ items.length →
        items.getLast? = some last →
        liststr items =
          .ok (String.intercalate ", " items.dropLast ++ " and " ++ last)) ∧
    (runSystems [⟨"S1", 0, 0, 0, 0, 0, ["j1"], []⟩]).zero_jumps_at = [] ∧
    liststr (runSystems [⟨"S1", 0, 0, 0, 0, 0, ["j1"], []⟩]).zero_jumps_at =
      .error .indexError := by
  refine ⟨by decide, ?_, ?_, by decide, by decide⟩
  · intro a
    rfl
  · intro items last hlen hl
    have h1 : items.length ≠ 1 := by omega
    simp [liststr, h1, hl]

/-- Witness for C10: the length-2 case at a concrete list. -/
theorem liststr_spec_witness :
    liststr ["x", "y"] =
      .ok (String.intercalate ", " (["x", "y"].dropLast) ++ " and " ++ "y") :=
  liststr_spec.2.2.1 ["x", "y"] "y" (by decide) (by decide)

end Dataranges
